import Mathlib

/-
  Verification development for the FileForge file-processing pipeline.

  The definitions below are a shallow embedding of the repository's Python
  sources: the backend submission endpoint (`app/api/files.py`), the queue
  router (`app/services/rabbitmq.py`) and the four worker fleets
  (`workers/{image_processor,video_processor,security,ai_tagger}/worker.py`).
  Database rows become Lean structures, the SQLAlchemy session becomes an
  explicit `DB` value threaded through each operation, the S3 object store
  becomes a set of (bucket, key) pairs, and every source of nondeterminism
  (clock, fresh UUIDs, scanner verdicts, generated keys, model tags, output
  sizes) becomes an explicit oracle parameter.  Executions are modelled on
  their no-I/O-exception paths; the branch structure of the handlers is
  preserved exactly.
-/

namespace FileForge

/-- Job lifecycle states (the `JobStatus` enum, identical across backend and
workers). -/
inductive JobStatus where
  | QUEUED
  | RUNNING
  | COMPLETED
  | FAILED
deriving DecidableEq, Repr

/-- File lifecycle states (the `FileStatus` enum). -/
inductive FileStatus where
  | UPLOADED
  | PROCESSING
  | READY
  | FAILED
deriving DecidableEq, Repr

/-- The optional per-job parameters actually read by the handlers
(`params.get(...)` calls in the workers). -/
structure Params where
  size : Option String
  target_format : Option String
  quality : Option Nat
  password : Option String
  time : Option String
  duration : Option Nat
  resolution : Option String
  format : Option String
deriving DecidableEq, Repr

/-- Empty `params` dictionary (the submitter always creates jobs with
`params={}`). -/
def Params.empty : Params := ⟨none, none, none, none, none, none, none, none⟩

/-- A row of the `files` table.  UUIDs are modelled as `Nat`, timestamps as a
`Nat` tick supplied by the caller. -/
structure FileRow where
  id : Nat
  owner_id : Nat
  original_name : String
  storage_bucket : String
  storage_key : String
  size_bytes : Nat
  mime_type : String
  status : FileStatus
  created_at : Nat
  is_processed_output : Bool
  parent_file_id : Option Nat
deriving DecidableEq, Repr

/-- A row of the `jobs` table.  The `type` column stores the `JobType` enum's
string value exactly as the sources do on the wire. -/
structure JobRow where
  id : Nat
  file_id : Nat
  pipeline_id : Option Nat
  type : String
  status : JobStatus
  created_at : Nat
  updated_at : Nat
  result_file_id : Option Nat
  error_message : Option String
  params : Params
deriving DecidableEq, Repr

/-- A row of the `pipelines` table; `steps` keeps the action strings in
order (the submitter stores `[{"type": action} for action in actions]`). -/
structure PipelineRow where
  id : Nat
  file_id : Nat
  name : String
  steps : List String
  created_at : Nat
deriving DecidableEq, Repr

/-- A row of the `file_metadata` table (only the columns the embedded code
touches). -/
structure MetadataRow where
  id : Nat
  file_id : Nat
  ai_tags : Option (List String)
  created_at : Nat
  updated_at : Nat
deriving DecidableEq, Repr

/-- The relational store. -/
structure DB where
  files : List FileRow
  jobs : List JobRow
  pipelines : List PipelineRow
  metadata : List MetadataRow
deriving DecidableEq, Repr

/-- The object store, as the set of (bucket, key) addresses that currently
hold an object. -/
abbrev ObjectStore := List (String × String)

/-- `upload_file` / `put_object`: after the call the address holds an object
(overwriting is invisible at this granularity). -/
def putObject (st : ObjectStore) (bucket key : String) : ObjectStore :=
  if (bucket, key) ∈ st then st else st ++ [(bucket, key)]

/-- `delete_object`: idempotent removal of an address. -/
def deleteObject (st : ObjectStore) (bucket key : String) : ObjectStore :=
  st.filter (fun p => !(p.1 == bucket && p.2 == key))

/-- Combined database plus object-store state. -/
structure SysState where
  db : DB
  store : ObjectStore
deriving DecidableEq, Repr

/-- `db.query(Job).filter(Job.id == job_id).first()`. -/
def findJob (db : DB) (jid : Nat) : Option JobRow :=
  db.jobs.find? (fun j => j.id == jid)

/-- `db.query(File).filter(File.id == file_id).first()`. -/
def findFile (db : DB) (fid : Nat) : Option FileRow :=
  db.files.find? (fun f => f.id == fid)

/-- Mutate the first row matching `p` (the ORM mutates the single row returned
by `.first()`). -/
def updateFirst (p : α → Bool) (g : α → α) : List α → List α
  | [] => []
  | x :: xs => if p x then g x :: xs else x :: updateFirst p g xs

/-- `update_job_status` as defined identically in every worker: look up the
job, set `status` and `updated_at`, and set `error_message` /
`result_file_id` only when the argument is truthy. -/
def update_job_status (db : DB) (job_id : Nat) (status : JobStatus)
    (error_message : Option String) (result_file_id : Option Nat)
    (now : Nat) : DB :=
  let touch : JobRow → JobRow := fun j =>
    { j with
      status := status
      updated_at := now
      error_message :=
        match error_message with
        | some m => if m = "" then j.error_message else some m
        | none => j.error_message
      result_file_id :=
        match result_file_id with
        | some r => some r
        | none => j.result_file_id }
  { db with jobs := updateFirst (fun j => j.id == job_id) touch db.jobs }

/-- The ORM pattern `file = query(...).first(); if file: file.status = st`. -/
def setFileStatus (db : DB) (fid : Nat) (st : FileStatus) : DB :=
  let touched := updateFirst (fun f => f.id == fid)
    (fun f => { f with status := st }) db.files
  { db with files := touched }

/-- The raw SQL `UPDATE files SET status = 'FAILED' WHERE id = ...` issued by
the security worker on a virus finding (hits every matching row). -/
def sqlSetFileStatusFailed (db : DB) (fid : Nat) : DB :=
  let touched := db.files.map
    (fun f => if f.id == fid then { f with status := FileStatus.FAILED } else f)
  { db with files := touched }

/-- The string values of the `JobType` enum: `JobType(action)` succeeds
exactly on these strings and raises `ValueError` otherwise. -/
def validActions : List String :=
  ["image_convert", "thumbnail", "image_compress",
   "video_convert", "video_preview", "video_thumbnail",
   "compress", "metadata",
   "encrypt", "decrypt", "virus_scan", "ai_tag"]

/-- The routing dictionary of `RabbitMQService.get_queue_for_job_type`. -/
def queueMapping : List (String × String) :=
  [("image_convert", "image_queue"),
   ("thumbnail", "image_queue"),
   ("image_compress", "image_queue"),
   ("video_convert", "video_queue"),
   ("video_preview", "video_queue"),
   ("video_thumbnail", "video_queue"),
   ("compress", "security_queue"),
   ("metadata", "image_queue"),
   ("encrypt", "security_queue"),
   ("decrypt", "security_queue"),
   ("virus_scan", "security_queue"),
   ("ai_tag", "ai_queue")]

/-- `get_queue_for_job_type`: dictionary lookup with default
`'image_queue'`. -/
def get_queue_for_job_type (job_type : String) : String :=
  match queueMapping.lookup job_type with
  | some q => q
  | none => "image_queue"

/-! Byte-level model of the security worker's cryptography.  File contents
are byte lists (`List Nat`, each element one byte).  `Fernet` is an external
authenticated-encryption library; we model its tokens symbolically: a token
is an injective, printable (base64-like, in particular newline-free) encoding
of the key it was minted under together with the plaintext, and decryption
succeeds exactly when the presented key matches.  This captures the library's
contract (`decrypt(encrypt(m)) = m` under the same key, failure otherwise)
without its internals, which live outside the repository. -/

/-- Bytes removed by `bytes.strip()` (ASCII whitespace). -/
def isSpaceByte (b : Nat) : Bool :=
  b == 32 || b == 9 || b == 10 || b == 13 || b == 11 || b == 12

/-- `bytes.strip()`: drop ASCII whitespace from both ends. -/
def stripBytes (bs : List Nat) : List Nat :=
  ((bs.dropWhile isSpaceByte).reverse.dropWhile isSpaceByte).reverse

/-- Encode one byte as two characters of a printable alphabet (codes 65-80),
standing in for the base64url alphabet of a real Fernet token. -/
def encByte (b : Nat) : List Nat :=
  [65 + b / 16 % 16, 65 + b % 16]

/-- Printable encoding of a byte string. -/
def hexEncode (bs : List Nat) : List Nat :=
  bs.flatMap encByte

/-- Inverse of `hexEncode`. -/
def hexDecode : List Nat → Option (List Nat)
  | [] => some []
  | h :: l :: rest =>
      if 65 ≤ h ∧ h ≤ 80 ∧ 65 ≤ l ∧ l ≤ 80 then
        (hexDecode rest).map (fun t => ((h - 65) * 16 + (l - 65)) :: t)
      else none
  | [_] => none

/-- Split a byte string at the first occurrence of `sep` (the `readline` /
rest-of-file split; the separator is consumed). -/
def splitAtFirst (sep : Nat) : List Nat → List Nat × List Nat
  | [] => ([], [])
  | b :: bs =>
      if b == sep then ([], bs)
      else
        let p := splitAtFirst sep bs
        (b :: p.1, p.2)

/-- Symbolic Fernet token minted under `key` for plaintext `data`: printable
encoding of the key, a separator (code 46, `'.'` as in real tokens), then the
printable encoding of the plaintext. -/
def fernetEncrypt (key data : List Nat) : List Nat :=
  hexEncode key ++ [46] ++ hexEncode data

/-- Symbolic Fernet decryption: succeeds iff the presented key is the one the
token was minted under (the HMAC check), returning the plaintext. -/
def fernetDecrypt (key token : List Nat) : Option (List Nat) :=
  let p := splitAtFirst 46 token
  if p.1 == hexEncode key then hexDecode p.2 else none

/-- `encrypt_file` of the security worker.  The source derives
`key = hashlib.sha256(password.encode()).digest()` and immediately discards
it: the cipher is built from a fresh `Fernet.generate_key()` (here the
oracle argument `freshKey`), and that fresh key is written as the first line
of the output, ahead of the token (`key_b64 + b'\n' + encrypted`).  The
password has no influence on the output. -/
def encrypt_file (data : List Nat) (password : List Nat)
    (freshKey : List Nat) : List Nat :=
  freshKey ++ [10] ++ fernetEncrypt freshKey data

/-- `decrypt_file` of the security worker: `readline().strip()` recovers the
key from the first line, the rest of the file is the token, and the cipher
built from the recovered key decrypts it.  The `password` parameter is never
read.  `none` models the `InvalidToken` exception. -/
def decrypt_file (fileBytes : List Nat) (password : List Nat) :
    Option (List Nat) :=
  let p := splitAtFirst 10 fileBytes
  let key_b64 := stripBytes p.1
  fernetDecrypt key_b64 p.2

/-! Model of `pathlib.Path` name splitting used for output-key construction.
The names involved are plain file names (no directory separators). -/

/-- Index of the last occurrence of `c`, if any. -/
def lastIdxOf (c : Char) : List Char → Option Nat
  | [] => none
  | x :: xs =>
      match lastIdxOf c xs with
      | some i => some (i + 1)
      | none => if x = c then some 0 else none

/-- `Path(name).stem`: the name up to its last dot, except that a dot in
first or last position does not begin an extension. -/
def pathStem (s : String) : String :=
  match lastIdxOf '.' s.data with
  | some i => if 0 < i ∧ i < s.data.length - 1 then ⟨s.data.take i⟩ else s
  | none => s

/-- `Path(name).suffix`: the extension from the last dot onwards, under the
same proviso as `pathStem`. -/
def pathSuffix (s : String) : String :=
  match lastIdxOf '.' s.data with
  | some i => if 0 < i ∧ i < s.data.length - 1 then ⟨s.data.drop i⟩ else ""
  | none => ""

/-- `original_name.endswith('.enc')`: the last four characters are
`.enc`. -/
def endsWithEnc (s : String) : Bool :=
  s.data.reverse.take 4 == ['c', 'n', 'e', '.']

/-- The decrypt branch's `if original_name.endswith('.enc'):
original_name = original_name[:-4]`. -/
def stripEncSuffix (s : String) : String :=
  if endsWithEnc s then ⟨s.data.take (s.data.length - 4)⟩ else s

/-! The worker runtime.  Each fleet's `process_*_job` is embedded as a
function from the decoded envelope, an oracle of nondeterministic inputs
and the current state to the state after the handler returns.  Executions
are modelled on their no-I/O-exception paths (downloads, uploads and
subprocesses succeed); the handlers' branch structure, database writes and
object-store writes follow the sources line by line. -/

/-- The decoded JSON envelope published per job. -/
structure Envelope where
  job_id : Nat
  file_id : Nat
  bucket : String
  key : String
  type : String
  params : Params
deriving DecidableEq, Repr

/-- The possible interactions with the ClamAV daemon inside
`scan_file_for_virus`. -/
inductive ScanOutcome where
  | unavailable
  | ok (result : Option String)
  | exn (msg : String)
deriving DecidableEq, Repr

/-- `scan_file_for_virus`: returns `(is_clean, message)`.  An unreachable
daemon and an exception are both treated as clean; a non-`None` scan result
is a finding. -/
def scan_file_for_virus (scan : ScanOutcome) : Bool × String :=
  match scan with
  | ScanOutcome.unavailable => (true, "ClamAV not available")
  | ScanOutcome.ok none => (true, "Clean")
  | ScanOutcome.ok (some r) => (false, "Virus detected: " ++ r)
  | ScanOutcome.exn e => (true, "Scan error: " ++ e)

/-- Oracle for the nondeterministic inputs of one handler execution: the
clock, the generated result-file UUID, the output object's size, the
scanner interaction and the vision model's tag list. -/
structure WorkerCtx where
  now : Nat
  freshId : Nat
  outSize : Nat
  scan : ScanOutcome
  tags : List String
deriving DecidableEq, Repr

/-- The repeated worker idiom
`file_obj.original_name if file_obj else 'file'`. -/
def originalNameOrDefault (db : DB) (fid : Nat) : String :=
  match findFile db fid with
  | some f => f.original_name
  | none => "file"

/-- The output-completion block duplicated across the image, video and
security workers: upload the artifact, run the
`INSERT INTO files ... SELECT ... FROM files WHERE id = '<parent>'`
statement (which inserts one derived row exactly when the parent row
exists, inheriting `owner_id`), mark the job COMPLETED with
`result_file_id`, and set the parent file's status to READY. -/
def uploadAndComplete (db : DB) (store : ObjectStore) (env : Envelope)
    (ctx : WorkerCtx) (outName outBucket outKey outMime : String) :
    SysState :=
  SysState.mk
    (setFileStatus
      (update_job_status
        (match findFile db env.file_id with
         | some parent =>
             { db with files := db.files ++
                 [{ id := ctx.freshId
                    owner_id := parent.owner_id
                    original_name := outName
                    storage_bucket := outBucket
                    storage_key := outKey
                    size_bytes := ctx.outSize
                    mime_type := outMime
                    status := FileStatus.READY
                    created_at := ctx.now
                    is_processed_output := true
                    parent_file_id := some env.file_id }] }
         | none => db)
        env.job_id JobStatus.COMPLETED none (some ctx.freshId) ctx.now)
      env.file_id FileStatus.READY)
    (putObject store outBucket outKey)

/-- `process_security_job` of the security worker: set the job RUNNING,
download the input, branch on the action, and for the output-producing
actions run the shared completion block.  An unrecognized action falls
through every branch and leaves the job RUNNING with no completion.
(The queries against the session after the RUNNING update are written
against `s.db`; only the jobs table changed, so the file lookups agree
with the source's post-update session reads.) -/
def process_security_job (env : Envelope) (ctx : WorkerCtx)
    (s : SysState) : SysState :=
  if env.type == "virus_scan" then
    if (scan_file_for_virus ctx.scan).1 then
      SysState.mk
        (setFileStatus
          (update_job_status
            (update_job_status s.db env.job_id JobStatus.RUNNING none none
              ctx.now)
            env.job_id JobStatus.COMPLETED
            (some "✓ No virus found - File is clean") none ctx.now)
          env.file_id FileStatus.READY)
        s.store
    else
      SysState.mk
        (update_job_status
          (sqlSetFileStatusFailed
            (update_job_status s.db env.job_id JobStatus.RUNNING none none
              ctx.now)
            env.file_id)
          env.job_id JobStatus.FAILED
          (some ("⚠ Virus detected: " ++ (scan_file_for_virus ctx.scan).2))
          none ctx.now)
        s.store
  else if env.type == "encrypt" then
    uploadAndComplete
      (update_job_status s.db env.job_id JobStatus.RUNNING none none ctx.now)
      s.store env ctx
      (pathStem (originalNameOrDefault s.db env.file_id) ++ "_encrypted" ++
        pathSuffix (originalNameOrDefault s.db env.file_id) ++ ".enc")
      "encrypted"
      (pathStem (originalNameOrDefault s.db env.file_id) ++ "_encrypted" ++
        pathSuffix (originalNameOrDefault s.db env.file_id) ++ ".enc")
      "application/octet-stream"
  else if env.type == "decrypt" then
    uploadAndComplete
      (update_job_status s.db env.job_id JobStatus.RUNNING none none ctx.now)
      s.store env ctx
      (pathStem (stripEncSuffix (originalNameOrDefault s.db env.file_id)) ++
        "_decrypted" ++
        pathSuffix (stripEncSuffix (originalNameOrDefault s.db env.file_id)))
      "processed"
      (pathStem (stripEncSuffix (originalNameOrDefault s.db env.file_id)) ++
        "_decrypted" ++
        pathSuffix (stripEncSuffix (originalNameOrDefault s.db env.file_id)))
      "application/octet-stream"
  else if env.type == "compress" then
    uploadAndComplete
      (update_job_status s.db env.job_id JobStatus.RUNNING none none ctx.now)
      s.store env ctx
      (toString env.file_id ++ "_compressed.zip")
      "processed"
      (toString env.file_id ++ "_compressed.zip")
      "application/octet-stream"
  else
    SysState.mk
      (update_job_status s.db env.job_id JobStatus.RUNNING none none ctx.now)
      s.store

/-- `process_image_job` of the image worker: set the job RUNNING, compute
output names from the parent's `original_name` (default `'file'` when the
row is missing), run the handler for the three image actions, and complete;
an unrecognized action takes the no-output branch, which still marks the
job COMPLETED and the parent READY. -/
def process_image_job (env : Envelope) (ctx : WorkerCtx) (s : SysState) :
    SysState :=
  if env.type == "thumbnail" then
    uploadAndComplete
      (update_job_status s.db env.job_id JobStatus.RUNNING none none ctx.now)
      s.store env ctx
      (pathStem (originalNameOrDefault s.db env.file_id) ++ "_thumb_" ++
        env.params.size.getD "256x256" ++ ".jpg")
      "thumbnails"
      (pathStem (originalNameOrDefault s.db env.file_id) ++ "_thumb_" ++
        env.params.size.getD "256x256" ++ ".jpg")
      "image/jpeg"
  else if env.type == "image_convert" then
    uploadAndComplete
      (update_job_status s.db env.job_id JobStatus.RUNNING none none ctx.now)
      s.store env ctx
      (pathStem (originalNameOrDefault s.db env.file_id) ++ "_converted." ++
        (if ((env.params.target_format.getD "WEBP").toUpper.toLower ==
            "jpg") = true then "jpeg"
          else (env.params.target_format.getD "WEBP").toUpper.toLower))
      "processed"
      (pathStem (originalNameOrDefault s.db env.file_id) ++ "_converted." ++
        (if ((env.params.target_format.getD "WEBP").toUpper.toLower ==
            "jpg") = true then "jpeg"
          else (env.params.target_format.getD "WEBP").toUpper.toLower))
      "image/jpeg"
  else if env.type == "image_compress" then
    uploadAndComplete
      (update_job_status s.db env.job_id JobStatus.RUNNING none none ctx.now)
      s.store env ctx
      (pathStem (originalNameOrDefault s.db env.file_id) ++ "_compressed.jpg")
      "processed"
      (pathStem (originalNameOrDefault s.db env.file_id) ++ "_compressed.jpg")
      "image/jpeg"
  else
    SysState.mk
      (setFileStatus
        (update_job_status
          (update_job_status s.db env.job_id JobStatus.RUNNING none none
            ctx.now)
          env.job_id JobStatus.COMPLETED none none ctx.now)
        env.file_id FileStatus.READY)
      s.store

/-- `process_video_job` of the video worker: unlike the other workers it
raises when the parent row is missing, which the enclosing handler turns
into a FAILED job.  Otherwise each action uploads an artifact and runs the
shared completion block; an unrecognized action takes the no-output branch,
which still marks the job COMPLETED and the parent READY. -/
def process_video_job (env : Envelope) (ctx : WorkerCtx) (s : SysState) :
    SysState :=
  match findFile s.db env.file_id with
  | none =>
      SysState.mk
        (update_job_status
          (update_job_status s.db env.job_id JobStatus.RUNNING none none
            ctx.now)
          env.job_id JobStatus.FAILED
          (some ("File " ++ toString env.file_id ++ " not found")) none
          ctx.now)
        s.store
  | some f =>
      if env.type == "video_thumbnail" then
        uploadAndComplete
          (update_job_status s.db env.job_id JobStatus.RUNNING none none
            ctx.now)
          s.store env ctx
          (pathStem f.original_name ++ "_thumb.jpg")
          "thumbnails"
          (toString env.file_id ++ "_video_thumb.jpg")
          "image/jpeg"
      else if env.type == "video_preview" then
        uploadAndComplete
          (update_job_status s.db env.job_id JobStatus.RUNNING none none
            ctx.now)
          s.store env ctx
          (pathStem f.original_name ++ "_preview.mp4")
          "processed"
          (toString env.file_id ++ "_preview.mp4")
          "video/mp4"
      else if env.type == "video_convert" then
        uploadAndComplete
          (update_job_status s.db env.job_id JobStatus.RUNNING none none
            ctx.now)
          s.store env ctx
          (pathStem f.original_name ++ "_converted_" ++
            env.params.resolution.getD "720p" ++ "." ++
            env.params.format.getD "mp4")
          "processed"
          (toString env.file_id ++ "_converted_" ++
            env.params.resolution.getD "720p" ++ "." ++
            env.params.format.getD "mp4")
          "video/mp4"
      else
        SysState.mk
          (setFileStatus
            (update_job_status
              (update_job_status s.db env.job_id JobStatus.RUNNING none none
                ctx.now)
              env.job_id JobStatus.COMPLETED none none ctx.now)
            env.file_id FileStatus.READY)
          s.store

/-- The metadata upsert of the AI worker: overwrite `ai_tags` on the
existing row for the file, or insert a fresh row. -/
def upsertAiTags (db : DB) (fid : Nat) (tags : List String) (freshId : Nat)
    (now : Nat) : DB :=
  match db.metadata.find? (fun m => m.file_id == fid) with
  | some _ =>
      { db with metadata :=
                  updateFirst (fun m => m.file_id == fid)
                    (fun m =>
                      { m with ai_tags := some tags, updated_at := now })
                    db.metadata }
  | none =>
      { db with metadata :=
                  db.metadata ++
                    [{ id := freshId, file_id := fid, ai_tags := some tags,
                       created_at := now, updated_at := now }] }

/-- `process_ai_job` of the AI tagger: set the job RUNNING; for `ai_tag`
store the model's tags into `file_metadata`, set the parent file READY and
the job COMPLETED.  Any other action leaves the job RUNNING. -/
def process_ai_job (env : Envelope) (ctx : WorkerCtx) (s : SysState) :
    SysState :=
  if env.type == "ai_tag" then
    SysState.mk
      (update_job_status
        (setFileStatus
          (upsertAiTags
            (update_job_status s.db env.job_id JobStatus.RUNNING none none
              ctx.now)
            env.file_id ctx.tags ctx.freshId ctx.now)
          env.file_id FileStatus.READY)
        env.job_id JobStatus.COMPLETED none none ctx.now)
      s.store
  else
    SysState.mk
      (update_job_status s.db env.job_id JobStatus.RUNNING none none ctx.now)
      s.store

/-! The submission endpoint (`upload_file` in `app/api/files.py`) and the
delete endpoint (`delete_file`).  The endpoint's visible effects are the
committed database state, the object store, the HTTP response, and — for
the temporal claims — the ordered trace of broker publishes and the
transaction commit. -/

/-- An externally visible effect of the upload request, in program order. -/
inductive Event where
  | publish (queue : String) (job_id : Nat)
  | commit
deriving DecidableEq, Repr

/-- The decoded upload request: the multipart file (name, size, content
type), the authenticated owner, and the parsed `pipeline_actions` JSON
(`none` when the form field is absent). -/
structure UploadReq where
  filename : String
  content_size : Nat
  content_type : Option String
  user_id : Nat
  pipeline_actions : Option (List String)
deriving DecidableEq, Repr

/-- Oracle for the request's generated identifiers and clock: the File
UUID, the Pipeline UUID, one Job UUID per action index, and the
timestamp. -/
structure UploadCtx where
  file_id : Nat
  pipeline_id : Nat
  jobIds : Nat → Nat
  now : Nat

/-- The outcome of the request: committed database, object store, effect
trace, and response (`some file_id` on HTTP 200, `none` on the 500 raised
by `JobType(action)` on an unknown action). -/
structure UploadResult where
  db : DB
  store : ObjectStore
  events : List Event
  response : Option Nat
deriving DecidableEq, Repr

/-- A Job row as created by the submitter: QUEUED, empty params, both
timestamps at creation time. -/
def mkQueuedJob (jid fid pid : Nat) (action : String) (now : Nat) : JobRow :=
  ⟨jid, fid, some pid, action, JobStatus.QUEUED, now, now, none, none,
    Params.empty⟩

/-- `upload_file` of `app/api/files.py`: upload the bytes to `raw` under
`<owner>/<file_id>_<filename>`, insert the File row (UPLOADED), and if
actions were supplied insert a Pipeline row and, per action in order, a
QUEUED Job row followed immediately by a broker publish to the routed
queue; then flip the File to PROCESSING and finally commit the one
transaction.  Each publish therefore happens before the commit.  An
invalid action string makes `JobType(action)` raise at that iteration: the
publishes already issued stand, the transaction is rolled back (the
committed database is unchanged), and the endpoint answers 500. -/
def upload_file (req : UploadReq) (ctx : UploadCtx) (s : SysState) :
    UploadResult :=
  if (req.pipeline_actions.getD []).isEmpty then
    UploadResult.mk
      (DB.mk
        (s.db.files ++
          [⟨ctx.file_id, req.user_id, req.filename, "raw",
            toString req.user_id ++ "/" ++ toString ctx.file_id ++ "_" ++
              req.filename,
            req.content_size,
            req.content_type.getD "application/octet-stream",
            FileStatus.UPLOADED, ctx.now, false, none⟩])
        s.db.jobs s.db.pipelines s.db.metadata)
      (putObject s.store "raw"
        (toString req.user_id ++ "/" ++ toString ctx.file_id ++ "_" ++
          req.filename))
      [Event.commit]
      (some ctx.file_id)
  else if (req.pipeline_actions.getD []).all
      (fun a => validActions.contains a) then
    UploadResult.mk
      (DB.mk
        (s.db.files ++
          [⟨ctx.file_id, req.user_id, req.filename, "raw",
            toString req.user_id ++ "/" ++ toString ctx.file_id ++ "_" ++
              req.filename,
            req.content_size,
            req.content_type.getD "application/octet-stream",
            FileStatus.PROCESSING, ctx.now, false, none⟩])
        (s.db.jobs ++
          (req.pipeline_actions.getD []).enum.map (fun p =>
            mkQueuedJob (ctx.jobIds p.1) ctx.file_id ctx.pipeline_id p.2
              ctx.now))
        (s.db.pipelines ++
          [⟨ctx.pipeline_id, ctx.file_id, "Auto Pipeline",
            req.pipeline_actions.getD [], ctx.now⟩])
        s.db.metadata)
      (putObject s.store "raw"
        (toString req.user_id ++ "/" ++ toString ctx.file_id ++ "_" ++
          req.filename))
      (((req.pipeline_actions.getD []).enum.map (fun p =>
          Event.publish (get_queue_for_job_type p.2) (ctx.jobIds p.1))) ++
        [Event.commit])
      (some ctx.file_id)
  else
    UploadResult.mk s.db
      (putObject s.store "raw"
        (toString req.user_id ++ "/" ++ toString ctx.file_id ++ "_" ++
          req.filename))
      (((req.pipeline_actions.getD []).takeWhile
          (fun a => validActions.contains a)).enum.map (fun p =>
        Event.publish (get_queue_for_job_type p.2) (ctx.jobIds p.1)))
      none

/-- The ordering property stated by the spec: scanning the trace left to
right, every publish is preceded by a commit. -/
def allPublishesAfterCommit (seen : Bool) : List Event → Bool
  | [] => true
  | Event.commit :: rest => allPublishesAfterCommit true rest
  | Event.publish _ _ :: rest => seen && allPublishesAfterCommit seen rest

/-- HTTP outcome of the delete endpoint: 404 when no row matches, success,
or the unhandled `IntegrityError` (HTTP 500) raised by a commit that
violates a foreign key — together with the state the operation leaves
behind (the commits that already succeeded, and every blob deleted before
the failing commit). -/
inductive DeleteOutcome where
  | notFound
  | ok (s : SysState)
  | integrityError (s : SysState)
deriving DecidableEq, Repr

/-- `db.query(File).filter(File.parent_file_id == file_id).all()`: the
direct children only; the query never recurses to grandchildren. -/
def directChildren (db : DB) (fid : Nat) : List FileRow :=
  db.files.filter (fun c => c.parent_file_id == some fid)

/-- The first committed step of `delete_file`: remove the jobs whose
subject is the file or whose `result_file_id` is one of its direct
children.  (Despite the source comment promising deletion of jobs
associated "by result_file_id", a job whose `result_file_id` is the file
itself is not matched.)  No table references `jobs`, so this commit always
succeeds. -/
def deleteJobsCommit (db : DB) (fid : Nat) : DB :=
  { db with jobs := db.jobs.filter (fun j =>
      !(j.file_id == fid ||
        (match j.result_file_id with
         | some r => (directChildren db fid).any (fun c => c.id == r)
         | none => false))) }

/-- The schema's foreign keys on DELETE (`001_initial.py` declares
`files.parent_file_id → files.id`, `jobs.file_id → files.id` and
`jobs.result_file_id → files.id`, none with `ON DELETE`): committing a
transaction that deletes the file rows `deletedIds` — together with the
ORM-cascaded jobs, pipelines and metadata of exactly those rows — is
rejected with `IntegrityError` iff a surviving file row's
`parent_file_id` or a surviving job's `result_file_id` still points at a
deleted row.  (Surviving jobs' `file_id` and the pipeline/metadata
foreign keys cannot dangle: the cascades remove those rows in the same
transaction.) -/
def fkDeleteViolation (db : DB) (deletedIds : List Nat) : Bool :=
  db.files.any (fun g => !(deletedIds.contains g.id) &&
      (match g.parent_file_id with
       | some p => deletedIds.contains p
       | none => false)) ||
  db.jobs.any (fun j => !(deletedIds.contains j.file_id) &&
      (match j.result_file_id with
       | some r => deletedIds.contains r
       | none => false))

/-- Effect of a successful commit deleting the file rows `deletedIds`:
the ORM issues the deletes by primary key, and the relationship cascades
(`all, delete-orphan` on `File.jobs`, `File.pipelines`,
`File.file_metadata` in `models.py`) remove those rows' own jobs,
pipelines and metadata in the same transaction. -/
def cascadeDeleteFiles (db : DB) (deletedIds : List Nat) : DB :=
  DB.mk
    (db.files.filter (fun f => !(deletedIds.contains f.id)))
    (db.jobs.filter (fun j => !(deletedIds.contains j.file_id)))
    (db.pipelines.filter (fun p => !(deletedIds.contains p.file_id)))
    (db.metadata.filter (fun m => !(deletedIds.contains m.file_id)))

/-- `delete_file` of `app/api/files.py`, stepped through its three
commits with the database's foreign-key checks.  404 when no row matches
id and owner.  Commit 1 (`files.py:309`) removes the jobs whose subject
is the file or whose result is a direct child.  The loop then deletes
each direct child's blob from the object store and marks its row deleted;
commit 2 (`files.py:318`) is rejected whenever a surviving row still
references a direct child — e.g. a grandchild's `parent_file_id` — and
the `IntegrityError` escapes the endpoint as HTTP 500 with the children's
blobs already gone and no file row removed.  Otherwise the parent's blob
is deleted, the metadata and parent row are marked deleted, and commit 3
(`files.py:332`) is rejected in turn when a surviving job's
`result_file_id` is the file itself (the parent's blob already gone).
Grandchildren are never visited on any path. -/
def delete_file (s : SysState) (file_id : Nat) (user_id : Nat) :
    DeleteOutcome :=
  match s.db.files.find?
      (fun f => f.id == file_id && f.owner_id == user_id) with
  | none => DeleteOutcome.notFound
  | some file =>
      if fkDeleteViolation (deleteJobsCommit s.db file_id)
          ((directChildren s.db file_id).map (fun c => c.id)) then
        DeleteOutcome.integrityError
          (SysState.mk (deleteJobsCommit s.db file_id)
            ((directChildren s.db file_id).foldl
              (fun st c => deleteObject st c.storage_bucket c.storage_key)
              s.store))
      else if fkDeleteViolation
          (cascadeDeleteFiles (deleteJobsCommit s.db file_id)
            ((directChildren s.db file_id).map (fun c => c.id)))
          [file_id] then
        DeleteOutcome.integrityError
          (SysState.mk
            (cascadeDeleteFiles (deleteJobsCommit s.db file_id)
              ((directChildren s.db file_id).map (fun c => c.id)))
            (deleteObject
              ((directChildren s.db file_id).foldl
                (fun st c => deleteObject st c.storage_bucket c.storage_key)
                s.store)
              file.storage_bucket file.storage_key))
      else
        DeleteOutcome.ok
          (SysState.mk
            (cascadeDeleteFiles
              (cascadeDeleteFiles (deleteJobsCommit s.db file_id)
                ((directChildren s.db file_id).map (fun c => c.id)))
              [file_id])
            (deleteObject
              ((directChildren s.db file_id).foldl
                (fun st c => deleteObject st c.storage_bucket c.storage_key)
                s.store)
              file.storage_bucket file.storage_key))

end FileForge

namespace FileForge

/-- Association-list lookup returns `none` when the key is absent from the
key column. -/
theorem lookup_eq_none_of_not_mem_keys :
    ∀ {l : List (String × String)} {a : String},
      a ∉ l.map Prod.fst → l.lookup a = none := by
  intro l a h
  induction l with
  | nil => rfl
  | cons p rest ih =>
    obtain ⟨k, v⟩ := p
    simp only [List.map_cons, List.mem_cons, not_or] at h
    have hk : (a == k) = false := by
      simp only [beq_eq_false_iff_ne, ne_eq]
      exact h.1
    simp only [List.lookup, hk]
    exact ih h.2

/-- C4: the routing function maps every named action exactly as the table
states and every unknown action string to `image_queue` as the default. -/
theorem C4_routing_table :
    get_queue_for_job_type "thumbnail" = "image_queue" ∧
    get_queue_for_job_type "image_convert" = "image_queue" ∧
    get_queue_for_job_type "image_compress" = "image_queue" ∧
    get_queue_for_job_type "metadata" = "image_queue" ∧
    get_queue_for_job_type "video_thumbnail" = "video_queue" ∧
    get_queue_for_job_type "video_preview" = "video_queue" ∧
    get_queue_for_job_type "video_convert" = "video_queue" ∧
    get_queue_for_job_type "compress" = "security_queue" ∧
    get_queue_for_job_type "encrypt" = "security_queue" ∧
    get_queue_for_job_type "decrypt" = "security_queue" ∧
    get_queue_for_job_type "virus_scan" = "security_queue" ∧
    get_queue_for_job_type "ai_tag" = "ai_queue" ∧
    ∀ a : String, a ∉ queueMapping.map Prod.fst →
      get_queue_for_job_type a = "image_queue" := by
  refine ⟨rfl, rfl, rfl, rfl, rfl, rfl, rfl, rfl, rfl, rfl, rfl, rfl, ?_⟩
  intro a ha
  have h : queueMapping.lookup a = none := lookup_eq_none_of_not_mem_keys ha
  simp [get_queue_for_job_type, h]

/-- Witness for C4: the unknown action `"shred"` routes to the default
`image_queue`. -/
theorem C4_witness : get_queue_for_job_type "shred" = "image_queue" :=
  C4_routing_table.2.2.2.2.2.2.2.2.2.2.2.2 "shred" (by decide)

/-- A predicate that holds of no element leaves `dropWhile` inert. -/
theorem dropWhile_eq_self_of_none {p : Nat → Bool} {l : List Nat}
    (h : ∀ b ∈ l, p b = false) : l.dropWhile p = l := by
  cases l with
  | nil => rfl
  | cons b bs => simp [List.dropWhile, h b (by simp)]

/-- Stripping whitespace from a whitespace-free byte string is the
identity. -/
theorem stripBytes_eq_self {l : List Nat}
    (h : ∀ b ∈ l, isSpaceByte b = false) : stripBytes l = l := by
  unfold stripBytes
  rw [dropWhile_eq_self_of_none h]
  rw [dropWhile_eq_self_of_none (fun b hb => h b (List.mem_reverse.mp hb))]
  exact List.reverse_reverse l

/-- Splitting at a separator absent from the left part recovers both
parts. -/
theorem splitAtFirst_append {sep : Nat} {l r : List Nat} (h : sep ∉ l) :
    splitAtFirst sep (l ++ sep :: r) = (l, r) := by
  induction l with
  | nil => simp [splitAtFirst]
  | cons b bs ih =>
    simp only [List.mem_cons, not_or] at h
    have hb : (b == sep) = false := by
      simp only [beq_eq_false_iff_ne, ne_eq]
      exact fun e => h.1 e.symm
    simp [splitAtFirst, hb, ih h.2]

/-- Every byte of the printable encoding lies in the alphabet range
65-80. -/
theorem hexEncode_range {l : List Nat} : ∀ x ∈ hexEncode l, 65 ≤ x ∧ x ≤ 80 := by
  intro x hx
  unfold hexEncode at hx
  simp only [List.mem_flatMap] at hx
  obtain ⟨b, _, hb⟩ := hx
  have h1 : b / 16 % 16 < 16 := Nat.mod_lt _ (by norm_num)
  have h2 : b % 16 < 16 := Nat.mod_lt _ (by norm_num)
  simp only [encByte, List.mem_cons, List.not_mem_nil, or_false] at hb
  rcases hb with h | h <;> subst h <;> omega

/-- The printable encoding decodes back to the original byte string. -/
theorem hexDecode_hexEncode {l : List Nat} (h : ∀ b ∈ l, b < 256) :
    hexDecode (hexEncode l) = some l := by
  induction l with
  | nil => rfl
  | cons b bs ih =>
    have hb : b < 256 := h b (by simp)
    have hrest := ih (fun x hx => h x (by simp [hx]))
    have h1 : b / 16 % 16 < 16 := Nat.mod_lt _ (by norm_num)
    have h2 : b % 16 < 16 := Nat.mod_lt _ (by norm_num)
    show hexDecode (encByte b ++ hexEncode bs) = some (b :: bs)
    simp only [encByte, List.cons_append, List.nil_append]
    rw [show hexDecode ((65 + b / 16 % 16) :: (65 + b % 16) :: hexEncode bs) =
        if 65 ≤ 65 + b / 16 % 16 ∧ 65 + b / 16 % 16 ≤ 80 ∧
            65 ≤ 65 + b % 16 ∧ 65 + b % 16 ≤ 80 then
          (hexDecode (hexEncode bs)).map
            (fun t => ((65 + b / 16 % 16 - 65) * 16 + (65 + b % 16 - 65)) :: t)
        else none from rfl]
    rw [if_pos (by omega), hrest]
    simp only [Option.map_some', Option.some.injEq, List.cons.injEq]
    refine ⟨by omega, ?_⟩
    simp

/-- Shared round-trip argument: the encrypted container written by
`encrypt_file` is decrypted back to the original bytes by `decrypt_file`
for any pair of passwords, because the fresh key is stored in the container
itself and the passwords are never used. -/
theorem encrypt_decrypt_roundtrip (data pw1 pw2 freshKey : List Nat)
    (hdata : ∀ b ∈ data, b < 256)
    (hkey : ∀ b ∈ freshKey, isSpaceByte b = false) :
    decrypt_file (encrypt_file data pw1 freshKey) pw2 = some data := by
  have h10 : (10 : Nat) ∉ freshKey := fun hm => by
    simpa [isSpaceByte] using hkey 10 hm
  have h46 : (46 : Nat) ∉ hexEncode freshKey := fun hm => by
    have := hexEncode_range 46 hm
    omega
  unfold decrypt_file encrypt_file
  rw [show freshKey ++ [10] ++ fernetEncrypt freshKey data =
      freshKey ++ 10 :: fernetEncrypt freshKey data by simp]
  rw [splitAtFirst_append h10]
  show fernetDecrypt (stripBytes freshKey) (fernetEncrypt freshKey data) =
    some data
  rw [stripBytes_eq_self hkey]
  unfold fernetDecrypt fernetEncrypt
  rw [show hexEncode freshKey ++ [46] ++ hexEncode data =
      hexEncode freshKey ++ 46 :: hexEncode data by simp]
  rw [splitAtFirst_append h46]
  simp only [beq_self_eq_true, if_true]
  exact hexDecode_hexEncode hdata

/-- C6: running the ENCRYPT handler and then the DECRYPT handler with the
same credential on its output yields the original byte string exactly, for
every byte string, credential, and generated key. -/
theorem C6_encrypt_then_decrypt (data password freshKey : List Nat)
    (hdata : ∀ b ∈ data, b < 256)
    (hkey : ∀ b ∈ freshKey, isSpaceByte b = false) :
    decrypt_file (encrypt_file data password freshKey) password = some data :=
  encrypt_decrypt_roundtrip data password password freshKey hdata hkey

/-- Witness for C6 at concrete bytes, password and generated key. -/
theorem C6_witness :
    decrypt_file (encrypt_file [202, 7, 255] [112, 119] [65, 66, 67])
      [112, 119] = some [202, 7, 255] :=
  C6_encrypt_then_decrypt [202, 7, 255] [112, 119] [65, 66, 67]
    (by decide) (by decide)

/-- C9: decryption does not depend on the supplied password: encrypting
with `p1` and decrypting with any `p2` succeeds and yields the original
bytes, because the fresh key is stored in the output container and the
password-derived key is discarded. -/
theorem C9_decrypt_password_independent (data p1 p2 freshKey : List Nat)
    (hdata : ∀ b ∈ data, b < 256)
    (hkey : ∀ b ∈ freshKey, isSpaceByte b = false) :
    decrypt_file (encrypt_file data p1 freshKey) p2 = some data :=
  encrypt_decrypt_roundtrip data p1 p2 freshKey hdata hkey

/-- Witness for C9: two different passwords, same recovered plaintext. -/
theorem C9_witness :
    decrypt_file (encrypt_file [0, 128, 31] [97] [70, 71]) [98, 99] =
      some [0, 128, 31] :=
  C9_decrypt_password_independent [0, 128, 31] [97] [98, 99] [70, 71]
    (by decide) (by decide)

/-- `find?` over `updateFirst` with the same predicate, when the mutation
preserves the predicate, returns the mutated row. -/
theorem find?_updateFirst_stable {α : Type} {p : α → Bool} {g : α → α}
    (l : List α) (hg : ∀ x, p x = true → p (g x) = true) :
    (updateFirst p g l).find? p = (l.find? p).map g := by
  induction l with
  | nil => rfl
  | cons x xs ih =>
    by_cases hx : p x = true
    · simp [updateFirst, hx, List.find?_cons, hg x hx]
    · have hx' : p x = false := by simpa using hx
      simp [updateFirst, hx', List.find?_cons, ih]

/-- A row not matched by the predicate survives `updateFirst` unchanged. -/
theorem mem_updateFirst_of_neg {α : Type} {p : α → Bool} {g : α → α}
    {x : α} {l : List α} (hx : x ∈ l) (hpx : p x = false) :
    x ∈ updateFirst p g l := by
  induction l with
  | nil => cases hx
  | cons y ys ih =>
    by_cases hy : p y = true
    · rcases List.mem_cons.mp hx with h | h
      · subst h; rw [hpx] at hy; cases hy
      · simp [updateFirst, hy, h]
    · have hy' : p y = false := by simpa using hy
      rcases List.mem_cons.mp hx with h | h
      · subst h; simp [updateFirst, hy']
      · simp only [updateFirst, hy', Bool.false_eq_true, if_false,
          List.mem_cons]
        exact Or.inr (ih h)

/-- Reading back the job that `update_job_status` touched. -/
theorem findJob_update_job_status (db : DB) (jid : Nat) (st : JobStatus)
    (em : Option String) (rf : Option Nat) (now : Nat) :
    findJob (update_job_status db jid st em rf now) jid =
      (findJob db jid).map (fun j =>
        { j with
          status := st
          updated_at := now
          error_message :=
            match em with
            | some m => if m = "" then j.error_message else some m
            | none => j.error_message
          result_file_id :=
            match rf with
            | some r => some r
            | none => j.result_file_id }) :=
  find?_updateFirst_stable db.jobs (fun _ hx => hx)

/-- `update_job_status` leaves the files table untouched. -/
theorem findFile_update_job_status (db : DB) (jid : Nat) (st : JobStatus)
    (em : Option String) (rf : Option Nat) (now : Nat) (fid : Nat) :
    findFile (update_job_status db jid st em rf now) fid = findFile db fid :=
  rfl

/-- `setFileStatus` leaves the jobs table untouched. -/
theorem findJob_setFileStatus (db : DB) (fid : Nat) (st : FileStatus)
    (jid : Nat) : findJob (setFileStatus db fid st) jid = findJob db jid :=
  rfl

/-- Reading back the file that `setFileStatus` touched. -/
theorem findFile_setFileStatus (db : DB) (fid : Nat) (st : FileStatus) :
    findFile (setFileStatus db fid st) fid =
      (findFile db fid).map (fun f => { f with status := st }) :=
  find?_updateFirst_stable db.files (fun _ hx => hx)

/-- The raw-SQL FAILED update leaves the jobs table untouched. -/
theorem findJob_sqlSetFileStatusFailed (db : DB) (fid jid : Nat) :
    findJob (sqlSetFileStatusFailed db fid) jid = findJob db jid :=
  rfl

/-- Reading back the file hit by the raw-SQL FAILED update. -/
theorem findFile_sqlSetFileStatusFailed (db : DB) (fid : Nat) :
    findFile (sqlSetFileStatusFailed db fid) fid =
      (findFile db fid).map
        (fun f => { f with status := FileStatus.FAILED }) := by
  show (db.files.map (fun f =>
      if f.id == fid then { f with status := FileStatus.FAILED } else f)).find?
        (fun f => f.id == fid) =
    (db.files.find? (fun f => f.id == fid)).map
      (fun f => { f with status := FileStatus.FAILED })
  rw [List.find?_map]
  have hp : ((fun f : FileRow => f.id == fid) ∘ (fun f =>
      if f.id == fid then { f with status := FileStatus.FAILED } else f)) =
      (fun f : FileRow => f.id == fid) := by
    funext f
    by_cases h : f.id = fid
    · simp [h]
    · simp [h]
  rw [hp]
  cases hf : db.files.find? (fun f => f.id == fid) with
  | none => rfl
  | some x =>
      have hx : x.id = fid := by simpa using List.find?_some hf
      simp [hx]

/-- The security worker on a virus-scan envelope with a clean verdict. -/
theorem security_clean_eq (env : Envelope) (ctx : WorkerCtx) (s : SysState)
    (htype : env.type = "virus_scan")
    (hclean : (scan_file_for_virus ctx.scan).1 = true) :
    process_security_job env ctx s =
      SysState.mk
        (setFileStatus
          (update_job_status
            (update_job_status s.db env.job_id JobStatus.RUNNING none none
              ctx.now)
            env.job_id JobStatus.COMPLETED
            (some "✓ No virus found - File is clean") none ctx.now)
          env.file_id FileStatus.READY)
        s.store := by
  unfold process_security_job
  rw [htype]
  simp [hclean]

/-- The security worker on a virus-scan envelope with a positive finding
(the scanner returned a non-`None` result `r`); note the doubled prefix in
the recorded message: `scan_file_for_virus` already prefixes
`Virus detected: `, and the handler prefixes `⚠ Virus detected: ` again. -/
theorem security_dirty_eq (env : Envelope) (ctx : WorkerCtx) (s : SysState)
    (r : String) (htype : env.type = "virus_scan")
    (hscan : ctx.scan = ScanOutcome.ok (some r)) :
    process_security_job env ctx s =
      SysState.mk
        (update_job_status
          (sqlSetFileStatusFailed
            (update_job_status s.db env.job_id JobStatus.RUNNING none none
              ctx.now)
            env.file_id)
          env.job_id JobStatus.FAILED
          (some ("⚠ Virus detected: " ++ ("Virus detected: " ++ r)))
          none ctx.now)
        s.store := by
  unfold process_security_job
  rw [htype, hscan]
  rfl

/-- Reading back the completed job after the shared output-completion
block. -/
theorem findJob_uploadAndComplete (db : DB) (store : ObjectStore)
    (env : Envelope) (ctx : WorkerCtx) (n b k m : String) :
    findJob (uploadAndComplete db store env ctx n b k m).db env.job_id =
      (findJob db env.job_id).map (fun j =>
        { j with
          status := JobStatus.COMPLETED
          updated_at := ctx.now
          result_file_id := some ctx.freshId }) := by
  unfold uploadAndComplete
  cases hf : findFile db env.file_id <;>
    rw [findJob_setFileStatus, findJob_update_job_status] <;> rfl

/-- The files table after the shared output-completion block, when the
parent row exists: the derived row is appended and the parent's status is
set READY in place. -/
theorem files_uploadAndComplete (db : DB) (store : ObjectStore)
    (env : Envelope) (ctx : WorkerCtx) (n b k m : String) (parent : FileRow)
    (hf : findFile db env.file_id = some parent) :
    (uploadAndComplete db store env ctx n b k m).db.files =
      updateFirst (fun f => f.id == env.file_id)
        (fun f => { f with status := FileStatus.READY })
        (db.files ++
          [{ id := ctx.freshId
             owner_id := parent.owner_id
             original_name := n
             storage_bucket := b
             storage_key := k
             size_bytes := ctx.outSize
             mime_type := m
             status := FileStatus.READY
             created_at := ctx.now
             is_processed_output := true
             parent_file_id := some env.file_id }]) := by
  unfold uploadAndComplete
  rw [hf]
  rfl

/-- The object store after the shared output-completion block. -/
theorem store_uploadAndComplete (db : DB) (store : ObjectStore)
    (env : Envelope) (ctx : WorkerCtx) (n b k m : String) :
    (uploadAndComplete db store env ctx n b k m).store =
      putObject store b k := by
  unfold uploadAndComplete
  cases hf : findFile db env.file_id <;> rfl

/-- The published address is present after `putObject`. -/
theorem mem_putObject_self (st : ObjectStore) (b k : String) :
    (b, k) ∈ putObject st b k := by
  unfold putObject
  by_cases h : (b, k) ∈ st <;> simp [h]

/-- The security worker on an encrypt envelope. -/
theorem security_encrypt_eq (env : Envelope) (ctx : WorkerCtx) (s : SysState)
    (htype : env.type = "encrypt") :
    process_security_job env ctx s =
      uploadAndComplete
        (update_job_status s.db env.job_id JobStatus.RUNNING none none
          ctx.now)
        s.store env ctx
        (pathStem (originalNameOrDefault s.db env.file_id) ++ "_encrypted" ++
          pathSuffix (originalNameOrDefault s.db env.file_id) ++ ".enc")
        "encrypted"
        (pathStem (originalNameOrDefault s.db env.file_id) ++ "_encrypted" ++
          pathSuffix (originalNameOrDefault s.db env.file_id) ++ ".enc")
        "application/octet-stream" := by
  unfold process_security_job
  rw [htype]
  rfl

/-- The security worker on a decrypt envelope: the output key is the stem
of the `.enc`-stripped name, then `_decrypted`, then the extension of the
stripped name. -/
theorem security_decrypt_eq (env : Envelope) (ctx : WorkerCtx) (s : SysState)
    (htype : env.type = "decrypt") :
    process_security_job env ctx s =
      uploadAndComplete
        (update_job_status s.db env.job_id JobStatus.RUNNING none none
          ctx.now)
        s.store env ctx
        (pathStem (stripEncSuffix (originalNameOrDefault s.db env.file_id)) ++ "_decrypted" ++
          pathSuffix (stripEncSuffix (originalNameOrDefault s.db env.file_id)))
        "processed"
        (pathStem (stripEncSuffix (originalNameOrDefault s.db env.file_id)) ++ "_decrypted" ++
          pathSuffix (stripEncSuffix (originalNameOrDefault s.db env.file_id)))
        "application/octet-stream" := by
  unfold process_security_job
  rw [htype]
  rfl

/-- The security worker on a compress envelope. -/
theorem security_compress_eq (env : Envelope) (ctx : WorkerCtx)
    (s : SysState) (htype : env.type = "compress") :
    process_security_job env ctx s =
      uploadAndComplete
        (update_job_status s.db env.job_id JobStatus.RUNNING none none
          ctx.now)
        s.store env ctx
        (toString env.file_id ++ "_compressed.zip")
        "processed"
        (toString env.file_id ++ "_compressed.zip")
        "application/octet-stream" := by
  unfold process_security_job
  rw [htype]
  rfl

/-- The image worker on a thumbnail envelope. -/
theorem image_thumbnail_eq (env : Envelope) (ctx : WorkerCtx) (s : SysState)
    (htype : env.type = "thumbnail") :
    process_image_job env ctx s =
      uploadAndComplete
        (update_job_status s.db env.job_id JobStatus.RUNNING none none
          ctx.now)
        s.store env ctx
        (pathStem (originalNameOrDefault s.db env.file_id) ++ "_thumb_" ++
          env.params.size.getD "256x256" ++ ".jpg")
        "thumbnails"
        (pathStem (originalNameOrDefault s.db env.file_id) ++ "_thumb_" ++
          env.params.size.getD "256x256" ++ ".jpg")
        "image/jpeg" := by
  unfold process_image_job
  rw [htype]
  rfl

/-- The image worker on an image-convert envelope. -/
theorem image_convert_eq (env : Envelope) (ctx : WorkerCtx) (s : SysState)
    (htype : env.type = "image_convert") :
    process_image_job env ctx s =
      uploadAndComplete
        (update_job_status s.db env.job_id JobStatus.RUNNING none none
          ctx.now)
        s.store env ctx
        (pathStem (originalNameOrDefault s.db env.file_id) ++ "_converted." ++
          (if ((env.params.target_format.getD "WEBP").toUpper.toLower ==
              "jpg") = true then "jpeg"
            else (env.params.target_format.getD "WEBP").toUpper.toLower))
        "processed"
        (pathStem (originalNameOrDefault s.db env.file_id) ++ "_converted." ++
          (if ((env.params.target_format.getD "WEBP").toUpper.toLower ==
              "jpg") = true then "jpeg"
            else (env.params.target_format.getD "WEBP").toUpper.toLower))
        "image/jpeg" := by
  unfold process_image_job
  rw [htype]
  rfl

/-- The image worker on an image-compress envelope. -/
theorem image_compress_eq (env : Envelope) (ctx : WorkerCtx) (s : SysState)
    (htype : env.type = "image_compress") :
    process_image_job env ctx s =
      uploadAndComplete
        (update_job_status s.db env.job_id JobStatus.RUNNING none none
          ctx.now)
        s.store env ctx
        (pathStem (originalNameOrDefault s.db env.file_id) ++ "_compressed.jpg")
        "processed"
        (pathStem (originalNameOrDefault s.db env.file_id) ++ "_compressed.jpg")
        "image/jpeg" := by
  unfold process_image_job
  rw [htype]
  rfl

/-- The image worker on an unrecognized envelope still completes the job
and promotes the parent file. -/
theorem image_unknown_eq (env : Envelope) (ctx : WorkerCtx) (s : SysState)
    (h1 : (env.type == "thumbnail") = false)
    (h2 : (env.type == "image_convert") = false)
    (h3 : (env.type == "image_compress") = false) :
    process_image_job env ctx s =
      SysState.mk
        (setFileStatus
          (update_job_status
            (update_job_status s.db env.job_id JobStatus.RUNNING none none
              ctx.now)
            env.job_id JobStatus.COMPLETED none none ctx.now)
          env.file_id FileStatus.READY)
        s.store := by
  unfold process_image_job
  rw [h1, h2, h3]
  rfl

/-- A message built by prefixing a nonempty literal is never the empty
string. -/
theorem virus_message_ne_empty (w : String) :
    ("⚠ Virus detected: " ++ w) ≠ "" := by
  intro h
  have hlen := congrArg String.length h
  rw [String.length_append] at hlen
  have hpos : 0 < "⚠ Virus detected: ".length := by decide
  have hz : "".length = 0 := by decide
  omega

/-- C3 counterexample: on a clean scan the job completes, but its
`error_message` is the literal `✓ No virus found - File is clean`, not the
`clean` the claim states. -/
theorem C3_counterexample :
    (findJob
        (process_security_job
          ⟨5, 1, "raw", "10/1_cat.png", "virus_scan", Params.empty⟩
          ⟨2, 99, 50, ScanOutcome.ok none, []⟩
          ⟨DB.mk
            [⟨1, 10, "cat.png", "raw", "10/1_cat.png", 100, "image/png",
              FileStatus.PROCESSING, 0, false, none⟩]
            [⟨5, 1, none, "virus_scan", JobStatus.RUNNING, 0, 1, none, none,
              Params.empty⟩]
            [] [],
           [("raw", "10/1_cat.png")]⟩).db
        5).map JobRow.status = some JobStatus.COMPLETED ∧
    (findJob
        (process_security_job
          ⟨5, 1, "raw", "10/1_cat.png", "virus_scan", Params.empty⟩
          ⟨2, 99, 50, ScanOutcome.ok none, []⟩
          ⟨DB.mk
            [⟨1, 10, "cat.png", "raw", "10/1_cat.png", 100, "image/png",
              FileStatus.PROCESSING, 0, false, none⟩]
            [⟨5, 1, none, "virus_scan", JobStatus.RUNNING, 0, 1, none, none,
              Params.empty⟩]
            [] [],
           [("raw", "10/1_cat.png")]⟩).db
        5).map JobRow.error_message =
      some (some "✓ No virus found - File is clean") ∧
    (findJob
        (process_security_job
          ⟨5, 1, "raw", "10/1_cat.png", "virus_scan", Params.empty⟩
          ⟨2, 99, 50, ScanOutcome.ok none, []⟩
          ⟨DB.mk
            [⟨1, 10, "cat.png", "raw", "10/1_cat.png", 100, "image/png",
              FileStatus.PROCESSING, 0, false, none⟩]
            [⟨5, 1, none, "virus_scan", JobStatus.RUNNING, 0, 1, none, none,
              Params.empty⟩]
            [] [],
           [("raw", "10/1_cat.png")]⟩).db
        5).map JobRow.error_message ≠ some (some "clean") := by
  decide

/-- C3 as amended: a clean scan completes the job with `error_message`
equal to the literal `✓ No virus found - File is clean` (not `clean`) and
sets the parent file READY; a positive finding fails the job with
`error_message` equal to `⚠ Virus detected: ` prefixed onto the scanner
message `Virus detected: <result>` and sets the parent file FAILED. -/
theorem C3_virus_scan_outcomes :
    ∀ (env : Envelope) (ctx : WorkerCtx) (s : SysState) (j : JobRow)
      (f : FileRow),
      env.type = "virus_scan" →
      findJob s.db env.job_id = some j →
      findFile s.db env.file_id = some f →
      ((scan_file_for_virus ctx.scan).1 = true →
        (findJob (process_security_job env ctx s).db env.job_id).map
            JobRow.status = some JobStatus.COMPLETED ∧
        (findJob (process_security_job env ctx s).db env.job_id).map
            JobRow.error_message =
          some (some "✓ No virus found - File is clean") ∧
        (findFile (process_security_job env ctx s).db env.file_id).map
            FileRow.status = some FileStatus.READY) ∧
      (∀ r : String, ctx.scan = ScanOutcome.ok (some r) →
        (findJob (process_security_job env ctx s).db env.job_id).map
            JobRow.status = some JobStatus.FAILED ∧
        (findJob (process_security_job env ctx s).db env.job_id).map
            JobRow.error_message =
          some (some ("⚠ Virus detected: " ++ ("Virus detected: " ++ r))) ∧
        (findFile (process_security_job env ctx s).db env.file_id).map
            FileRow.status = some FileStatus.FAILED) := by
  intro env ctx s j f htype hj hf
  constructor
  · intro hclean
    rw [security_clean_eq env ctx s htype hclean]
    refine ⟨?_, ?_, ?_⟩
    · show (findJob (setFileStatus _ _ _) _).map _ = _
      rw [findJob_setFileStatus, findJob_update_job_status,
        findJob_update_job_status, hj]
      simp
    · show (findJob (setFileStatus _ _ _) _).map _ = _
      rw [findJob_setFileStatus, findJob_update_job_status,
        findJob_update_job_status, hj]
      simp
    · show (findFile (setFileStatus _ _ _) _).map _ = _
      rw [findFile_setFileStatus, findFile_update_job_status,
        findFile_update_job_status, hf]
      simp
  · intro r hscan
    rw [security_dirty_eq env ctx s r htype hscan]
    refine ⟨?_, ?_, ?_⟩
    · show (findJob (update_job_status _ _ _ _ _ _) _).map _ = _
      rw [findJob_update_job_status, findJob_sqlSetFileStatusFailed,
        findJob_update_job_status, hj]
      simp
    · show (findJob (update_job_status _ _ _ _ _ _) _).map _ = _
      rw [findJob_update_job_status, findJob_sqlSetFileStatusFailed,
        findJob_update_job_status, hj]
      simp [virus_message_ne_empty]
    · show (findFile (update_job_status _ _ _ _ _ _) _).map _ = _
      rw [findFile_update_job_status, findFile_sqlSetFileStatusFailed,
        findFile_update_job_status, hf]
      simp

/-- Witness for C3: the dirty branch at a concrete state and finding. -/
theorem C3_witness :
    (findJob
        (process_security_job
          ⟨5, 1, "raw", "10/1_virus.bin", "virus_scan", Params.empty⟩
          ⟨2, 99, 50, ScanOutcome.ok (some "Eicar-Test"), []⟩
          ⟨DB.mk
            [⟨1, 10, "virus.bin", "raw", "10/1_virus.bin", 100,
              "application/octet-stream", FileStatus.PROCESSING, 0, false,
              none⟩]
            [⟨5, 1, none, "virus_scan", JobStatus.RUNNING, 0, 1, none, none,
              Params.empty⟩]
            [] [],
           [("raw", "10/1_virus.bin")]⟩).db
        5).map JobRow.status = some JobStatus.FAILED ∧
    (findJob
        (process_security_job
          ⟨5, 1, "raw", "10/1_virus.bin", "virus_scan", Params.empty⟩
          ⟨2, 99, 50, ScanOutcome.ok (some "Eicar-Test"), []⟩
          ⟨DB.mk
            [⟨1, 10, "virus.bin", "raw", "10/1_virus.bin", 100,
              "application/octet-stream", FileStatus.PROCESSING, 0, false,
              none⟩]
            [⟨5, 1, none, "virus_scan", JobStatus.RUNNING, 0, 1, none, none,
              Params.empty⟩]
            [] [],
           [("raw", "10/1_virus.bin")]⟩).db
        5).map JobRow.error_message =
      some (some ("⚠ Virus detected: " ++
        ("Virus detected: " ++ "Eicar-Test"))) ∧
    (findFile
        (process_security_job
          ⟨5, 1, "raw", "10/1_virus.bin", "virus_scan", Params.empty⟩
          ⟨2, 99, 50, ScanOutcome.ok (some "Eicar-Test"), []⟩
          ⟨DB.mk
            [⟨1, 10, "virus.bin", "raw", "10/1_virus.bin", 100,
              "application/octet-stream", FileStatus.PROCESSING, 0, false,
              none⟩]
            [⟨5, 1, none, "virus_scan", JobStatus.RUNNING, 0, 1, none, none,
              Params.empty⟩]
            [] [],
           [("raw", "10/1_virus.bin")]⟩).db
        1).map FileRow.status = some FileStatus.FAILED :=
  (C3_virus_scan_outcomes
    ⟨5, 1, "raw", "10/1_virus.bin", "virus_scan", Params.empty⟩
    ⟨2, 99, 50, ScanOutcome.ok (some "Eicar-Test"), []⟩
    ⟨DB.mk
      [⟨1, 10, "virus.bin", "raw", "10/1_virus.bin", 100,
        "application/octet-stream", FileStatus.PROCESSING, 0, false, none⟩]
      [⟨5, 1, none, "virus_scan", JobStatus.RUNNING, 0, 1, none, none,
        Params.empty⟩]
      [] [],
     [("raw", "10/1_virus.bin")]⟩
    ⟨5, 1, none, "virus_scan", JobStatus.RUNNING, 0, 1, none, none,
      Params.empty⟩
    ⟨1, 10, "virus.bin", "raw", "10/1_virus.bin", 100,
      "application/octet-stream", FileStatus.PROCESSING, 0, false, none⟩
    rfl (by decide) (by decide)).2 "Eicar-Test" rfl

/-- C1 counterexample: a redelivered virus-scan envelope whose job row is
already COMPLETED is re-processed by the security worker: the resulting
state differs from the initial one (the job row's `error_message` and
`updated_at` are rewritten), refuting the claim that processing a
terminal-state envelope leaves the state unchanged. -/
theorem C1_counterexample :
    (findJob
        (DB.mk
          [⟨1, 10, "cat.png", "raw", "10/1_cat.png", 100, "image/png",
            FileStatus.READY, 0, false, none⟩]
          [⟨5, 1, none, "virus_scan", JobStatus.COMPLETED, 0, 1, none, none,
            Params.empty⟩]
          [] [])
        5).map JobRow.status = some JobStatus.COMPLETED ∧
    (findJob
        (process_security_job
          ⟨5, 1, "raw", "10/1_cat.png", "virus_scan", Params.empty⟩
          ⟨2, 99, 50, ScanOutcome.ok none, []⟩
          ⟨DB.mk
            [⟨1, 10, "cat.png", "raw", "10/1_cat.png", 100, "image/png",
              FileStatus.READY, 0, false, none⟩]
            [⟨5, 1, none, "virus_scan", JobStatus.COMPLETED, 0, 1, none, none,
              Params.empty⟩]
            [] [],
           [("raw", "10/1_cat.png")]⟩).db
        5).map JobRow.error_message =
      some (some "✓ No virus found - File is clean") ∧
    process_security_job
        ⟨5, 1, "raw", "10/1_cat.png", "virus_scan", Params.empty⟩
        ⟨2, 99, 50, ScanOutcome.ok none, []⟩
        ⟨DB.mk
          [⟨1, 10, "cat.png", "raw", "10/1_cat.png", 100, "image/png",
            FileStatus.READY, 0, false, none⟩]
          [⟨5, 1, none, "virus_scan", JobStatus.COMPLETED, 0, 1, none, none,
            Params.empty⟩]
          [] [],
         [("raw", "10/1_cat.png")]⟩ ≠
      ⟨DB.mk
        [⟨1, 10, "cat.png", "raw", "10/1_cat.png", 100, "image/png",
          FileStatus.READY, 0, false, none⟩]
        [⟨5, 1, none, "virus_scan", JobStatus.COMPLETED, 0, 1, none, none,
          Params.empty⟩]
        [] [],
       [("raw", "10/1_cat.png")]⟩ := by
  decide

/-- C1 as amended: the workers perform no terminal-state check, so a
redelivered envelope whose job row is already COMPLETED or FAILED is
re-executed in full rather than skipped: the security worker re-runs a
clean virus scan to COMPLETED, overwriting `error_message` and
`updated_at`, and the image worker re-runs any envelope to COMPLETED with
a fresh `updated_at`. -/
theorem C1_redelivery_reexecutes :
    ∀ (env : Envelope) (ctx : WorkerCtx) (s : SysState) (j : JobRow),
      findJob s.db env.job_id = some j →
      (j.status = JobStatus.COMPLETED ∨ j.status = JobStatus.FAILED) →
      (env.type = "virus_scan" → (scan_file_for_virus ctx.scan).1 = true →
        (findJob (process_security_job env ctx s).db env.job_id).map
            JobRow.status = some JobStatus.COMPLETED ∧
        (findJob (process_security_job env ctx s).db env.job_id).map
            JobRow.error_message =
          some (some "✓ No virus found - File is clean") ∧
        (findJob (process_security_job env ctx s).db env.job_id).map
            JobRow.updated_at = some ctx.now) ∧
      ((findJob (process_image_job env ctx s).db env.job_id).map
          JobRow.status = some JobStatus.COMPLETED ∧
        (findJob (process_image_job env ctx s).db env.job_id).map
          JobRow.updated_at = some ctx.now) := by
  intro env ctx s j hj _hterm
  constructor
  · intro htype hclean
    rw [security_clean_eq env ctx s htype hclean]
    show (findJob (setFileStatus _ _ _) _).map _ = _ ∧
      (findJob (setFileStatus _ _ _) _).map _ = _ ∧
      (findJob (setFileStatus _ _ _) _).map _ = _
    rw [findJob_setFileStatus, findJob_update_job_status,
      findJob_update_job_status, hj]
    simp
  · by_cases h1 : (env.type == "thumbnail") = true
    · rw [image_thumbnail_eq env ctx s (by simpa using h1),
        findJob_uploadAndComplete, findJob_update_job_status, hj]
      simp
    · by_cases h2 : (env.type == "image_convert") = true
      · rw [image_convert_eq env ctx s (by simpa using h2),
          findJob_uploadAndComplete, findJob_update_job_status, hj]
        simp
      · by_cases h3 : (env.type == "image_compress") = true
        · rw [image_compress_eq env ctx s (by simpa using h3),
            findJob_uploadAndComplete, findJob_update_job_status, hj]
          simp
        · rw [image_unknown_eq env ctx s (by simpa using h1)
              (by simpa using h2) (by simpa using h3),
            findJob_setFileStatus, findJob_update_job_status,
            findJob_update_job_status, hj]
          simp

/-- Witness for C1: the amended statement at the counterexample state. -/
theorem C1_witness :
    (findJob
        (process_security_job
          ⟨5, 1, "raw", "10/1_cat.png", "virus_scan", Params.empty⟩
          ⟨2, 99, 50, ScanOutcome.ok none, []⟩
          ⟨DB.mk
            [⟨1, 10, "cat.png", "raw", "10/1_cat.png", 100, "image/png",
              FileStatus.READY, 0, false, none⟩]
            [⟨5, 1, none, "virus_scan", JobStatus.COMPLETED, 0, 1, none, none,
              Params.empty⟩]
            [] [],
           [("raw", "10/1_cat.png")]⟩).db
        5).map JobRow.status = some JobStatus.COMPLETED ∧
    (findJob
        (process_security_job
          ⟨5, 1, "raw", "10/1_cat.png", "virus_scan", Params.empty⟩
          ⟨2, 99, 50, ScanOutcome.ok none, []⟩
          ⟨DB.mk
            [⟨1, 10, "cat.png", "raw", "10/1_cat.png", 100, "image/png",
              FileStatus.READY, 0, false, none⟩]
            [⟨5, 1, none, "virus_scan", JobStatus.COMPLETED, 0, 1, none, none,
              Params.empty⟩]
            [] [],
           [("raw", "10/1_cat.png")]⟩).db
        5).map JobRow.updated_at = some 2 :=
  let h := C1_redelivery_reexecutes
    ⟨5, 1, "raw", "10/1_cat.png", "virus_scan", Params.empty⟩
    ⟨2, 99, 50, ScanOutcome.ok none, []⟩
    ⟨DB.mk
      [⟨1, 10, "cat.png", "raw", "10/1_cat.png", 100, "image/png",
        FileStatus.READY, 0, false, none⟩]
      [⟨5, 1, none, "virus_scan", JobStatus.COMPLETED, 0, 1, none, none,
        Params.empty⟩]
      [] [],
     [("raw", "10/1_cat.png")]⟩
    ⟨5, 1, none, "virus_scan", JobStatus.COMPLETED, 0, 1, none, none,
      Params.empty⟩
    (by decide) (Or.inl rfl)
  ⟨(h.1 rfl (by decide)).1, (h.1 rfl (by decide)).2.2⟩

/-- Unfolding the `original_name if file else 'file'` idiom when the row
exists. -/
theorem originalNameOrDefault_eq (db : DB) (fid : Nat) (f : FileRow)
    (hf : findFile db fid = some f) :
    originalNameOrDefault db fid = f.original_name := by
  unfold originalNameOrDefault
  rw [hf]

/-- Appending rows does not change a successful lookup. -/
theorem findFile_files_append (db : DB) (l : List FileRow) (fid : Nat)
    (x : FileRow) (hf : findFile db fid = some x) :
    findFile { db with files := db.files ++ l } fid = some x := by
  show (db.files ++ l).find? (fun f => f.id == fid) = some x
  rw [List.find?_append,
    show db.files.find? (fun f => f.id == fid) = some x from hf]
  rfl

/-- Reading back the parent row after the shared output-completion block:
its status has been set READY. -/
theorem findFile_uploadAndComplete (db : DB) (store : ObjectStore)
    (env : Envelope) (ctx : WorkerCtx) (n b k m : String) (parent : FileRow)
    (hf : findFile db env.file_id = some parent) :
    findFile (uploadAndComplete db store env ctx n b k m).db env.file_id =
      some { parent with status := FileStatus.READY } := by
  unfold uploadAndComplete
  rw [hf]
  show findFile (setFileStatus _ _ _) _ = _
  rw [findFile_setFileStatus, findFile_update_job_status,
    findFile_files_append db _ env.file_id parent hf]
  rfl

/-- The derived row written by the shared output-completion block is in the
files table afterwards (when the generated id is distinct from the
parent's). -/
theorem mem_files_uploadAndComplete (db : DB) (store : ObjectStore)
    (env : Envelope) (ctx : WorkerCtx) (n b k m : String) (parent : FileRow)
    (hf : findFile db env.file_id = some parent)
    (hfresh : (ctx.freshId == env.file_id) = false) :
    ({ id := ctx.freshId, owner_id := parent.owner_id, original_name := n,
       storage_bucket := b, storage_key := k, size_bytes := ctx.outSize,
       mime_type := m, status := FileStatus.READY, created_at := ctx.now,
       is_processed_output := true,
       parent_file_id := some env.file_id } : FileRow) ∈
      (uploadAndComplete db store env ctx n b k m).db.files := by
  rw [files_uploadAndComplete db store env ctx n b k m parent hf]
  apply mem_updateFirst_of_neg
  · exact List.mem_append_right _ (by simp)
  · exact hfresh

/-- C7 counterexample: a DECRYPT job on a file named `photo.jpg.enc`
produces its output at key `photo_decrypted.jpg`, not at the
`.enc`-stripped input name `photo.jpg` the claim states. -/
theorem C7_counterexample :
    ((process_security_job
        ⟨5, 1, "encrypted", "10/1_photo.jpg.enc", "decrypt", Params.empty⟩
        ⟨2, 99, 50, ScanOutcome.ok none, []⟩
        ⟨DB.mk
          [⟨1, 10, "photo.jpg.enc", "encrypted", "10/1_photo.jpg.enc", 100,
            "application/octet-stream", FileStatus.READY, 0, false, none⟩]
          [⟨5, 1, none, "decrypt", JobStatus.QUEUED, 0, 0, none, none,
            Params.empty⟩]
          [] [],
         [("encrypted", "10/1_photo.jpg.enc")]⟩).db.files.filter
        (fun d => d.id == 99)).map
        (fun d => (d.storage_bucket, d.storage_key)) =
      [("processed", "photo_decrypted.jpg")] ∧
    ("photo_decrypted.jpg" : String) ≠ "photo.jpg" := by
  decide

/-- C7 as amended: for every DECRYPT job whose subject row exists, the
derived output File lands in bucket `processed` under the key formed from
the `.enc`-stripped input name as `<stem>_decrypted<ext>` (not the stripped
name itself), and the same address is written to the object store. -/
theorem C7_decrypt_output_key :
    ∀ (env : Envelope) (ctx : WorkerCtx) (s : SysState) (f : FileRow),
      env.type = "decrypt" →
      findFile s.db env.file_id = some f →
      (ctx.freshId == env.file_id) = false →
      (∃ d : FileRow,
        d ∈ (process_security_job env ctx s).db.files ∧
        d.id = ctx.freshId ∧
        d.storage_bucket = "processed" ∧
        d.storage_key =
          pathStem (stripEncSuffix f.original_name) ++ "_decrypted" ++
            pathSuffix (stripEncSuffix f.original_name) ∧
        d.is_processed_output = true ∧
        d.parent_file_id = some env.file_id) ∧
      ("processed",
        pathStem (stripEncSuffix f.original_name) ++ "_decrypted" ++
          pathSuffix (stripEncSuffix f.original_name)) ∈
        (process_security_job env ctx s).store := by
  intro env ctx s f htype hf hfresh
  rw [security_decrypt_eq env ctx s htype,
    originalNameOrDefault_eq s.db env.file_id f hf]
  constructor
  · exact ⟨_, mem_files_uploadAndComplete _ _ env ctx _ _ _ _ f hf hfresh,
      rfl, rfl, rfl, rfl, rfl⟩
  · rw [store_uploadAndComplete]
    exact mem_putObject_self _ _ _

/-- Witness for C7 at a concrete state: file `photo.jpg.enc`, output key
`photo_decrypted.jpg`. -/
theorem C7_witness :
    (∃ d : FileRow,
      d ∈ (process_security_job
        ⟨5, 1, "encrypted", "10/1_photo.jpg.enc", "decrypt", Params.empty⟩
        ⟨2, 99, 50, ScanOutcome.ok none, []⟩
        ⟨DB.mk
          [⟨1, 10, "photo.jpg.enc", "encrypted", "10/1_photo.jpg.enc", 100,
            "application/octet-stream", FileStatus.READY, 0, false, none⟩]
          [⟨5, 1, none, "decrypt", JobStatus.QUEUED, 0, 0, none, none,
            Params.empty⟩]
          [] [],
         [("encrypted", "10/1_photo.jpg.enc")]⟩).db.files ∧
      d.id = 99 ∧
      d.storage_bucket = "processed" ∧
      d.storage_key =
        pathStem (stripEncSuffix "photo.jpg.enc") ++ "_decrypted" ++
          pathSuffix (stripEncSuffix "photo.jpg.enc") ∧
      d.is_processed_output = true ∧
      d.parent_file_id = some 1) ∧
    ("processed",
      pathStem (stripEncSuffix "photo.jpg.enc") ++ "_decrypted" ++
        pathSuffix (stripEncSuffix "photo.jpg.enc")) ∈
      (process_security_job
        ⟨5, 1, "encrypted", "10/1_photo.jpg.enc", "decrypt", Params.empty⟩
        ⟨2, 99, 50, ScanOutcome.ok none, []⟩
        ⟨DB.mk
          [⟨1, 10, "photo.jpg.enc", "encrypted", "10/1_photo.jpg.enc", 100,
            "application/octet-stream", FileStatus.READY, 0, false, none⟩]
          [⟨5, 1, none, "decrypt", JobStatus.QUEUED, 0, 0, none, none,
            Params.empty⟩]
          [] [],
         [("encrypted", "10/1_photo.jpg.enc")]⟩).store :=
  C7_decrypt_output_key
    ⟨5, 1, "encrypted", "10/1_photo.jpg.enc", "decrypt", Params.empty⟩
    ⟨2, 99, 50, ScanOutcome.ok none, []⟩
    ⟨DB.mk
      [⟨1, 10, "photo.jpg.enc", "encrypted", "10/1_photo.jpg.enc", 100,
        "application/octet-stream", FileStatus.READY, 0, false, none⟩]
      [⟨5, 1, none, "decrypt", JobStatus.QUEUED, 0, 0, none, none,
        Params.empty⟩]
      [] [],
     [("encrypted", "10/1_photo.jpg.enc")]⟩
    ⟨1, 10, "photo.jpg.enc", "encrypted", "10/1_photo.jpg.enc", 100,
      "application/octet-stream", FileStatus.READY, 0, false, none⟩
    rfl (by decide) (by decide)

/-- The video worker on a video-thumbnail envelope (parent row present). -/
theorem video_thumbnail_eq (env : Envelope) (ctx : WorkerCtx) (s : SysState)
    (f : FileRow) (htype : env.type = "video_thumbnail")
    (hf : findFile s.db env.file_id = some f) :
    process_video_job env ctx s =
      uploadAndComplete
        (update_job_status s.db env.job_id JobStatus.RUNNING none none
          ctx.now)
        s.store env ctx
        (pathStem f.original_name ++ "_thumb.jpg")
        "thumbnails"
        (toString env.file_id ++ "_video_thumb.jpg")
        "image/jpeg" := by
  unfold process_video_job
  rw [hf, htype]
  rfl

/-- The video worker on a video-preview envelope (parent row present). -/
theorem video_preview_eq (env : Envelope) (ctx : WorkerCtx) (s : SysState)
    (f : FileRow) (htype : env.type = "video_preview")
    (hf : findFile s.db env.file_id = some f) :
    process_video_job env ctx s =
      uploadAndComplete
        (update_job_status s.db env.job_id JobStatus.RUNNING none none
          ctx.now)
        s.store env ctx
        (pathStem f.original_name ++ "_preview.mp4")
        "processed"
        (toString env.file_id ++ "_preview.mp4")
        "video/mp4" := by
  unfold process_video_job
  rw [hf, htype]
  rfl

/-- The video worker on a video-convert envelope (parent row present). -/
theorem video_convert_eq (env : Envelope) (ctx : WorkerCtx) (s : SysState)
    (f : FileRow) (htype : env.type = "video_convert")
    (hf : findFile s.db env.file_id = some f) :
    process_video_job env ctx s =
      uploadAndComplete
        (update_job_status s.db env.job_id JobStatus.RUNNING none none
          ctx.now)
        s.store env ctx
        (pathStem f.original_name ++ "_converted_" ++
          env.params.resolution.getD "720p" ++ "." ++
          env.params.format.getD "mp4")
        "processed"
        (toString env.file_id ++ "_converted_" ++
          env.params.resolution.getD "720p" ++ "." ++
          env.params.format.getD "mp4")
        "video/mp4" := by
  unfold process_video_job
  rw [hf, htype]
  rfl

/-- The video worker on an unrecognized envelope (parent row present) still
completes the job and promotes the parent file. -/
theorem video_unknown_eq (env : Envelope) (ctx : WorkerCtx) (s : SysState)
    (f : FileRow) (hf : findFile s.db env.file_id = some f)
    (h1 : (env.type == "video_thumbnail") = false)
    (h2 : (env.type == "video_preview") = false)
    (h3 : (env.type == "video_convert") = false) :
    process_video_job env ctx s =
      SysState.mk
        (setFileStatus
          (update_job_status
            (update_job_status s.db env.job_id JobStatus.RUNNING none none
              ctx.now)
            env.job_id JobStatus.COMPLETED none none ctx.now)
          env.file_id FileStatus.READY)
        s.store := by
  unfold process_video_job
  rw [hf, h1, h2, h3]
  rfl

/-- The AI worker on an ai-tag envelope. -/
theorem ai_tag_eq (env : Envelope) (ctx : WorkerCtx) (s : SysState)
    (htype : env.type = "ai_tag") :
    process_ai_job env ctx s =
      SysState.mk
        (update_job_status
          (setFileStatus
            (upsertAiTags
              (update_job_status s.db env.job_id JobStatus.RUNNING none none
                ctx.now)
              env.file_id ctx.tags ctx.freshId ctx.now)
            env.file_id FileStatus.READY)
          env.job_id JobStatus.COMPLETED none none ctx.now)
        s.store := by
  unfold process_ai_job
  rw [htype]
  rfl

/-- The metadata upsert leaves the files table untouched. -/
theorem findFile_upsertAiTags (db : DB) (fid2 : Nat) (tags : List String)
    (freshId now fid : Nat) :
    findFile (upsertAiTags db fid2 tags freshId now) fid = findFile db fid := by
  unfold upsertAiTags
  cases db.metadata.find? (fun m => m.file_id == fid2) <;> rfl

/-- C10: on every successful handler completion each worker sets the
subject file's status to READY unconditionally, whatever its current
status (in particular a file already FAILED by a virus scan is moved back
to READY): the image worker on any envelope, the security worker on its
output-producing actions, the AI worker on ai-tag, and the video worker on
any envelope whose subject row exists. -/
theorem C10_parent_ready :
    ∀ (env : Envelope) (ctx : WorkerCtx) (s : SysState) (f : FileRow),
      findFile s.db env.file_id = some f →
      ((findFile (process_image_job env ctx s).db env.file_id).map
          FileRow.status = some FileStatus.READY) ∧
      (env.type = "encrypt" ∨ env.type = "decrypt" ∨ env.type = "compress" →
        (findFile (process_security_job env ctx s).db env.file_id).map
          FileRow.status = some FileStatus.READY) ∧
      (env.type = "ai_tag" →
        (findFile (process_ai_job env ctx s).db env.file_id).map
          FileRow.status = some FileStatus.READY) ∧
      ((findFile (process_video_job env ctx s).db env.file_id).map
          FileRow.status = some FileStatus.READY) := by
  intro env ctx s f hf
  have hf1 : findFile
      (update_job_status s.db env.job_id JobStatus.RUNNING none none ctx.now)
      env.file_id = some f := hf
  refine ⟨?_, ?_, ?_, ?_⟩
  · by_cases h1 : (env.type == "thumbnail") = true
    · rw [image_thumbnail_eq env ctx s (by simpa using h1),
        findFile_uploadAndComplete _ _ env ctx _ _ _ _ f hf1]
      rfl
    · by_cases h2 : (env.type == "image_convert") = true
      · rw [image_convert_eq env ctx s (by simpa using h2),
          findFile_uploadAndComplete _ _ env ctx _ _ _ _ f hf1]
        rfl
      · by_cases h3 : (env.type == "image_compress") = true
        · rw [image_compress_eq env ctx s (by simpa using h3),
            findFile_uploadAndComplete _ _ env ctx _ _ _ _ f hf1]
          rfl
        · rw [image_unknown_eq env ctx s (by simpa using h1)
              (by simpa using h2) (by simpa using h3)]
          show (findFile (setFileStatus _ _ _) _).map _ = _
          rw [findFile_setFileStatus, findFile_update_job_status,
            findFile_update_job_status, hf]
          rfl
  · intro htype
    rcases htype with h | h | h
    · rw [security_encrypt_eq env ctx s h,
        findFile_uploadAndComplete _ _ env ctx _ _ _ _ f hf1]
      rfl
    · rw [security_decrypt_eq env ctx s h,
        findFile_uploadAndComplete _ _ env ctx _ _ _ _ f hf1]
      rfl
    · rw [security_compress_eq env ctx s h,
        findFile_uploadAndComplete _ _ env ctx _ _ _ _ f hf1]
      rfl
  · intro htype
    rw [ai_tag_eq env ctx s htype]
    show (findFile (update_job_status _ _ _ _ _ _) _).map _ = _
    rw [findFile_update_job_status, findFile_setFileStatus,
      findFile_upsertAiTags, findFile_update_job_status, hf]
    rfl
  · by_cases h1 : (env.type == "video_thumbnail") = true
    · rw [video_thumbnail_eq env ctx s f (by simpa using h1) hf,
        findFile_uploadAndComplete _ _ env ctx _ _ _ _ f hf1]
      rfl
    · by_cases h2 : (env.type == "video_preview") = true
      · rw [video_preview_eq env ctx s f (by simpa using h2) hf,
          findFile_uploadAndComplete _ _ env ctx _ _ _ _ f hf1]
        rfl
      · by_cases h3 : (env.type == "video_convert") = true
        · rw [video_convert_eq env ctx s f (by simpa using h3) hf,
            findFile_uploadAndComplete _ _ env ctx _ _ _ _ f hf1]
          rfl
        · rw [video_unknown_eq env ctx s f hf (by simpa using h1)
              (by simpa using h2) (by simpa using h3)]
          show (findFile (setFileStatus _ _ _) _).map _ = _
          rw [findFile_setFileStatus, findFile_update_job_status,
            findFile_update_job_status, hf]
          rfl

/-- Witness for C10: a compress envelope on a file currently FAILED; the
image, security and video workers all leave its status READY. -/
theorem C10_witness :
    (findFile
        (process_image_job
          ⟨5, 1, "raw", "10/1_doc.txt", "compress", Params.empty⟩
          ⟨2, 99, 50, ScanOutcome.ok none, []⟩
          ⟨DB.mk
            [⟨1, 10, "doc.txt", "raw", "10/1_doc.txt", 100, "text/plain",
              FileStatus.FAILED, 0, false, none⟩]
            [⟨5, 1, none, "compress", JobStatus.QUEUED, 0, 0, none, none,
              Params.empty⟩]
            [] [],
           [("raw", "10/1_doc.txt")]⟩).db
        1).map FileRow.status = some FileStatus.READY ∧
    (findFile
        (process_security_job
          ⟨5, 1, "raw", "10/1_doc.txt", "compress", Params.empty⟩
          ⟨2, 99, 50, ScanOutcome.ok none, []⟩
          ⟨DB.mk
            [⟨1, 10, "doc.txt", "raw", "10/1_doc.txt", 100, "text/plain",
              FileStatus.FAILED, 0, false, none⟩]
            [⟨5, 1, none, "compress", JobStatus.QUEUED, 0, 0, none, none,
              Params.empty⟩]
            [] [],
           [("raw", "10/1_doc.txt")]⟩).db
        1).map FileRow.status = some FileStatus.READY ∧
    (findFile
        (process_video_job
          ⟨5, 1, "raw", "10/1_doc.txt", "compress", Params.empty⟩
          ⟨2, 99, 50, ScanOutcome.ok none, []⟩
          ⟨DB.mk
            [⟨1, 10, "doc.txt", "raw", "10/1_doc.txt", 100, "text/plain",
              FileStatus.FAILED, 0, false, none⟩]
            [⟨5, 1, none, "compress", JobStatus.QUEUED, 0, 0, none, none,
              Params.empty⟩]
            [] [],
           [("raw", "10/1_doc.txt")]⟩).db
        1).map FileRow.status = some FileStatus.READY :=
  let h := C10_parent_ready
    ⟨5, 1, "raw", "10/1_doc.txt", "compress", Params.empty⟩
    ⟨2, 99, 50, ScanOutcome.ok none, []⟩
    ⟨DB.mk
      [⟨1, 10, "doc.txt", "raw", "10/1_doc.txt", 100, "text/plain",
        FileStatus.FAILED, 0, false, none⟩]
      [⟨5, 1, none, "compress", JobStatus.QUEUED, 0, 0, none, none,
        Params.empty⟩]
      [] [],
     [("raw", "10/1_doc.txt")]⟩
    ⟨1, 10, "doc.txt", "raw", "10/1_doc.txt", 100, "text/plain",
      FileStatus.FAILED, 0, false, none⟩
    (by decide)
  ⟨h.1, h.2.1 (Or.inr (Or.inr rfl)), h.2.2.2⟩

/-- C2 counterexample: uploading with one action produces the trace
`[publish image_queue j, commit]` — the publish precedes the commit,
refuting the claim that every envelope is published only after the
transaction has committed. -/
theorem C2_counterexample :
    (upload_file
        ⟨"cat.png", 100, some "image/png", 10, some ["thumbnail"]⟩
        ⟨1, 7, (fun i => 20 + i), 0⟩
        ⟨DB.mk [] [] [] [], []⟩).events =
      [Event.publish "image_queue" 20, Event.commit] ∧
    allPublishesAfterCommit false
      (upload_file
        ⟨"cat.png", 100, some "image/png", 10, some ["thumbnail"]⟩
        ⟨1, 7, (fun i => 20 + i), 0⟩
        ⟨DB.mk [] [] [] [], []⟩).events = false := by
  decide

/-- C2 as amended: for every submitted non-empty valid action list the
trace is one publish per action, in order, to the routed queue, followed
by the single commit — every publish precedes the commit, the reverse of
the claimed order. -/
theorem C2_publish_precedes_commit :
    ∀ (req : UploadReq) (ctx : UploadCtx) (s : SysState),
      (req.pipeline_actions.getD []).isEmpty = false →
      (req.pipeline_actions.getD []).all
        (fun a => validActions.contains a) = true →
      (upload_file req ctx s).events =
        ((req.pipeline_actions.getD []).enum.map (fun p =>
          Event.publish (get_queue_for_job_type p.2) (ctx.jobIds p.1))) ++
          [Event.commit] ∧
      allPublishesAfterCommit false (upload_file req ctx s).events =
        false := by
  intro req ctx s hne hval
  have hev : (upload_file req ctx s).events =
      ((req.pipeline_actions.getD []).enum.map (fun p =>
        Event.publish (get_queue_for_job_type p.2) (ctx.jobIds p.1))) ++
        [Event.commit] := by
    unfold upload_file
    rw [hne, hval]
    rfl
  refine ⟨hev, ?_⟩
  rw [hev]
  cases hact : req.pipeline_actions.getD [] with
  | nil => rw [hact] at hne; cases hne
  | cons a rest =>
      simp [List.enum, List.enumFrom, allPublishesAfterCommit]

/-- Witness for C2: the amended statement at a two-action upload. -/
theorem C2_witness :
    (upload_file
        ⟨"cat.png", 100, some "image/png", 10,
          some ["thumbnail", "virus_scan"]⟩
        ⟨1, 7, (fun i => 20 + i), 0⟩
        ⟨DB.mk [] [] [] [], []⟩).events =
      ((["thumbnail", "virus_scan"] : List String).enum.map (fun p =>
        Event.publish (get_queue_for_job_type p.2) (20 + p.1))) ++
        [Event.commit] ∧
    allPublishesAfterCommit false
      (upload_file
        ⟨"cat.png", 100, some "image/png", 10,
          some ["thumbnail", "virus_scan"]⟩
        ⟨1, 7, (fun i => 20 + i), 0⟩
        ⟨DB.mk [] [] [] [], []⟩).events = false :=
  C2_publish_precedes_commit
    ⟨"cat.png", 100, some "image/png", 10, some ["thumbnail", "virus_scan"]⟩
    ⟨1, 7, (fun i => 20 + i), 0⟩
    ⟨DB.mk [] [] [] [], []⟩
    (by decide) (by decide)

/-- C8: an upload whose `pipeline_actions` is empty or absent commits the
File row with status UPLOADED and creates no Pipeline row and no Job
rows. -/
theorem C8_empty_actions :
    ∀ (req : UploadReq) (ctx : UploadCtx) (s : SysState),
      (req.pipeline_actions.getD []).isEmpty = true →
      findFile s.db ctx.file_id = none →
      (upload_file req ctx s).db.jobs = s.db.jobs ∧
      (upload_file req ctx s).db.pipelines = s.db.pipelines ∧
      (findFile (upload_file req ctx s).db ctx.file_id).map FileRow.status =
        some FileStatus.UPLOADED ∧
      (upload_file req ctx s).response = some ctx.file_id := by
  intro req ctx s hemp hfresh
  unfold upload_file
  rw [hemp]
  refine ⟨rfl, rfl, ?_, rfl⟩
  show ((s.db.files ++
      ([⟨ctx.file_id, req.user_id, req.filename, "raw",
        toString req.user_id ++ "/" ++ toString ctx.file_id ++ "_" ++
          req.filename,
        req.content_size, req.content_type.getD "application/octet-stream",
        FileStatus.UPLOADED, ctx.now, false, none⟩] : List FileRow)).find?
      (fun f => f.id == ctx.file_id)).map FileRow.status =
    some FileStatus.UPLOADED
  rw [List.find?_append,
    show s.db.files.find? (fun f => f.id == ctx.file_id) = none from hfresh]
  simp [List.find?, Option.or]

/-- Witness for C8: an upload with absent `pipeline_actions` into an empty
store. -/
theorem C8_witness :
    (upload_file ⟨"cat.png", 100, some "image/png", 10, none⟩
        ⟨1, 7, (fun i => 20 + i), 0⟩ ⟨DB.mk [] [] [] [], []⟩).db.jobs =
      ([] : List JobRow) ∧
    (upload_file ⟨"cat.png", 100, some "image/png", 10, none⟩
        ⟨1, 7, (fun i => 20 + i), 0⟩
        ⟨DB.mk [] [] [] [], []⟩).db.pipelines = ([] : List PipelineRow) ∧
    (findFile
        (upload_file ⟨"cat.png", 100, some "image/png", 10, none⟩
          ⟨1, 7, (fun i => 20 + i), 0⟩ ⟨DB.mk [] [] [] [], []⟩).db
        1).map FileRow.status = some FileStatus.UPLOADED ∧
    (upload_file ⟨"cat.png", 100, some "image/png", 10, none⟩
        ⟨1, 7, (fun i => 20 + i), 0⟩ ⟨DB.mk [] [] [] [], []⟩).response =
      some 1 :=
  C8_empty_actions
    ⟨"cat.png", 100, some "image/png", 10, none⟩
    ⟨1, 7, (fun i => 20 + i), 0⟩
    ⟨DB.mk [] [] [] [], []⟩
    (by decide) (by decide)

/-- C5: evaluation of the delete endpoint at the failing input.  State:
file 1 with derived child 2 (`parent_file_id = 1`) and grandchild 3
(`parent_file_id = 2`); job 7 produced child 2 (subject 1, result 2) and
job 8 produced grandchild 3 (subject 2, result 3).  Deleting file 1
commits the removal of job 7, destroys child 2's blob, and then the
commit deleting row 2 violates the `files.parent_file_id` foreign key
(grandchild 3 still references it), so the endpoint raises
`IntegrityError` (HTTP 500): no File row is removed, grandchild 3 and its
blob survive, and job 8 survives — the cascade the claim (and the spec's
"must cascade") requires never happens. -/
theorem C5_delete_integrity_error :
    delete_file
        ⟨DB.mk
          [⟨1, 10, "cat.png", "raw", "10/1_cat.png", 100, "image/png",
            FileStatus.READY, 0, false, none⟩,
           ⟨2, 10, "cat_thumb.jpg", "thumbnails", "cat_thumb.jpg", 10,
            "image/jpeg", FileStatus.READY, 0, true, some 1⟩,
           ⟨3, 10, "cat_thumb_thumb.jpg", "thumbnails",
            "cat_thumb_thumb.jpg", 5, "image/jpeg", FileStatus.READY, 0,
            true, some 2⟩]
          [⟨7, 1, none, "thumbnail", JobStatus.COMPLETED, 0, 0, some 2,
            none, Params.empty⟩,
           ⟨8, 2, none, "thumbnail", JobStatus.COMPLETED, 0, 0, some 3,
            none, Params.empty⟩]
          [] [],
         [("raw", "10/1_cat.png"), ("thumbnails", "cat_thumb.jpg"),
          ("thumbnails", "cat_thumb_thumb.jpg")]⟩
        1 10 =
      DeleteOutcome.integrityError
        ⟨DB.mk
          [⟨1, 10, "cat.png", "raw", "10/1_cat.png", 100, "image/png",
            FileStatus.READY, 0, false, none⟩,
           ⟨2, 10, "cat_thumb.jpg", "thumbnails", "cat_thumb.jpg", 10,
            "image/jpeg", FileStatus.READY, 0, true, some 1⟩,
           ⟨3, 10, "cat_thumb_thumb.jpg", "thumbnails",
            "cat_thumb_thumb.jpg", 5, "image/jpeg", FileStatus.READY, 0,
            true, some 2⟩]
          [⟨8, 2, none, "thumbnail", JobStatus.COMPLETED, 0, 0, some 3,
            none, Params.empty⟩]
          [] [],
         [("raw", "10/1_cat.png"),
          ("thumbnails", "cat_thumb_thumb.jpg")]⟩ := by
  decide

end FileForge